import Mathlib

/-!
Shallow embedding of the BinanceBot trading agent (src/main.py, src/app_config.py)
and proofs of its specified properties.

Modelling conventions:
* Python `decimal.Decimal` values are embedded as exact rationals (`ℚ`); the
  spec postulates exact decimal arithmetic, and all values the claims touch
  fit without context rounding.  Where floating-point contamination matters
  (the `float(os.getenv("sales_ratio"))` conversion in app_config.py line 32)
  the binary64 rounding step is modelled explicitly.
* Fallible Python operations (subscripting an `int`, `KeyError`, invalid
  decimal literals) are embedded as `Except String` results.
* The asynchronous loops are embedded as functions over explicit traces:
  the monitor's polling loop over the list of ticks it observes, the feed
  loop over the list of receive events its socket delivers.
-/

/-- The shared latest-price cell `config.price_currency`.
app_config.py line 34 initialises it to the *integer* `0`; main.py lines
129–132 later overwrite it with a dict `{"asset": ..., "price": Decimal ...}`.
The two shapes are modelled as the two constructors. -/
inductive PriceCell where
  | intVal (n : ℤ)
  | dict (asset : String) (price : ℚ)
  deriving DecidableEq, Repr

/-- `Config.__init__` (app_config.py line 34): `self.price_currency = 0`. -/
def price_currency_init : PriceCell := PriceCell.intVal 0

/-- Python subscript `cell["price"]` as performed by the polling loop
(main.py line 57).  Subscripting an `int` raises `TypeError`; on the dict
written by the feed it returns the stored price. -/
def subscript_price : PriceCell → Except String ℚ
  | PriceCell.intVal _ => Except.error "TypeError"
  | PriceCell.dict _ p => Except.ok p

/-- A parsed JSON feed message, as a finite map from field names to string
values (the ticker fields the code touches, `s` and `c`, are both strings). -/
structure Message where
  fields : List (String × String)
  deriving DecidableEq, Repr

/-- Python `key in message_data`. -/
def Message.hasField (m : Message) (k : String) : Bool :=
  m.fields.any (fun p => p.1 == k)

/-- Python `message_data[key]`: `none` models a `KeyError`. -/
def Message.get (m : Message) (k : String) : Option String :=
  (m.fields.find? (fun p => p.1 == k)).map (fun p => p.2)

/-- Accumulator pass of decimal-digit-string evaluation; `none` on a
non-digit character. -/
def digitsValAux (acc : ℕ) : List Char → Option ℕ
  | [] => some acc
  | c :: rest =>
      if c.isDigit then digitsValAux (acc * 10 + (c.toNat - 48)) rest else none

/-- Split a character list at the first `'.'`, if any. -/
def splitOnDot : List Char → List Char × Option (List Char)
  | [] => ([], none)
  | c :: rest =>
      if c = '.' then ([], some rest)
      else
        let p := splitOnDot rest
        (c :: p.1, p.2)

/-- Embedding of Python's `decimal.Decimal(string)` constructor restricted to
the unsigned fixed-point literals this program receives (exchange prices such
as `"42000.50"`).  The conversion is exact: the digits before and after the
point determine the rational value with no rounding. -/
def decimalOfString (s : String) : Option ℚ :=
  let p := splitOnDot s.toList
  match p.2 with
  | none => (digitsValAux 0 p.1).map (fun n => (n : ℚ))
  | some f =>
      match digitsValAux 0 p.1, digitsValAux 0 f with
      | some n, some m => some ((n : ℚ) + (m : ℚ) / 10 ^ f.length)
      | _, _ => none

/-- One iteration of the feed's message handling, main.py lines 127–132:
if the parsed message has a `'c'` field, replace the shared cell with
`{"asset": message_data['s'], "price": Decimal(message_data['c'])}`;
otherwise leave the cell untouched.  Errors model the uncaught Python
exceptions of those lines (`KeyError` on a missing `'s'`,
`InvalidOperation` on a malformed price string). -/
def processMessage (cell : PriceCell) (m : Message) : Except String PriceCell :=
  if m.hasField "c" then
    match m.get "s" with
    | none => Except.error "KeyError"
    | some sv =>
        match m.get "c" with
        | none => Except.error "KeyError"
        | some cv =>
            match decimalOfString cv with
            | none => Except.error "InvalidOperation"
            | some price => Except.ok (PriceCell.dict sv price)
  else Except.ok cell

/-- Claim C7: processing the feed message `{"s":"BTCUSDT","c":"42000.50"}`
sets the shared latest-price cell to asset `BTCUSDT` with price exactly the
decimal 42000.50, whatever the cell held before. -/
theorem claim_C7 (cell : PriceCell) :
    processMessage cell ⟨[("s", "BTCUSDT"), ("c", "42000.50")]⟩ =
      Except.ok (PriceCell.dict "BTCUSDT" (42000.50 : ℚ)) := by
  have h1 : splitOnDot ['4', '2', '0', '0', '0', '.', '5', '0'] =
      (['4', '2', '0', '0', '0'], some ['5', '0']) := by decide
  have h2 : digitsValAux 0 ['4', '2', '0', '0', '0'] = some 42000 := by decide
  have h3 : digitsValAux 0 ['5', '0'] = some 50 := by decide
  have hc : Message.hasField ⟨[("s", "BTCUSDT"), ("c", "42000.50")]⟩ "c" = true := by decide
  simp [processMessage, hc, Message.get, decimalOfString, h1, h2, h3]
  norm_num

/-- Claim C8: a feed message whose parsed JSON object lacks the `'c'` field
leaves the shared latest-price cell unchanged and raises no error. -/
theorem claim_C8 (cell : PriceCell) (m : Message)
    (h : m.hasField "c" = false) :
    processMessage cell m = Except.ok cell := by
  unfold processMessage
  rw [h]
  simp

/-- Witness for C8: a subscription acknowledgement `{"result":"null","id":"1"}`
has no `'c'` field and leaves the initial cell unchanged. -/
theorem claim_C8_witness :
    (Message.hasField ⟨[("result", "null"), ("id", "1")]⟩ "c" = false) ∧
      processMessage price_currency_init ⟨[("result", "null"), ("id", "1")]⟩ =
        Except.ok price_currency_init :=
  ⟨by decide, claim_C8 price_currency_init ⟨[("result", "null"), ("id", "1")]⟩ (by decide)⟩

/-- Claim C9: the shared price cell starts life as the integer `0`
(app_config.py line 34), and the polling loop's read
`self.config.price_currency["price"]` (main.py line 57) performed before the
first feed update raises `TypeError` rather than degrading gracefully. -/
theorem claim_C9 :
    price_currency_init = PriceCell.intVal 0 ∧
      subscript_price price_currency_init = Except.error "TypeError" :=
  ⟨rfl, rfl⟩

/-- One observation of the polling loop of `Handler.task_checking_prices`
(main.py lines 56–61): the latest price read from the shared cell at line 57
and the wall-clock time `datetime.datetime.now()` read at line 58.  Times are
rationals (seconds); both reads of the cell within one loop iteration are
assumed to observe the same price. -/
structure Tick where
  price : ℚ
  now : ℚ
  deriving DecidableEq, Repr

/-- main.py line 54: `down_price = purchase_price - (purchase_price * Decimal(self.config.sales_ratio))`. -/
def down_price (purchase saleRatio : ℚ) : ℚ := purchase - purchase * saleRatio

/-- main.py line 55: `up_price = purchase_price + (purchase_price * Decimal(self.config.sales_ratio))`. -/
def up_price (purchase saleRatio : ℚ) : ℚ := purchase + purchase * saleRatio

/-- The sell trigger of main.py lines 57–58:
`(price <= down_price or price >= up_price) or (now >= end_timestamp)`. -/
def sellCond (down up deadline : ℚ) (t : Tick) : Bool :=
  (decide (t.price ≤ down) || decide (up ≤ t.price)) || decide (deadline ≤ t.now)

/-- The polling loop of main.py lines 56–61, run over the ticks it observes:
each iteration evaluates the trigger; when it first holds, the SELL order of
line 59 is issued and the loop `break`s, so the returned list holds the ticks
at which a SELL was issued (at most one).  An exhausted trace means the loop
was still polling (line 61's 0.2 s sleep) when observation stopped. -/
def pollLoop (down up deadline : ℚ) : List Tick → List Tick
  | [] => []
  | t :: rest =>
      if sellCond down up deadline t then [t] else pollLoop down up deadline rest

/-- `Handler.task_checking_prices` (main.py lines 41–61) as a function of the
buy's execution price and the observed ticks, returning the ticks at which a
SELL order was issued.  Line 53's walrus `if purchase_price := ...` is
Python truthiness on a `Decimal`: the body runs iff the price is non-zero. -/
def task_checking_prices (purchase saleRatio deadline : ℚ)
    (ticks : List Tick) : List Tick :=
  if purchase = 0 then []
  else pollLoop (down_price purchase saleRatio) (up_price purchase saleRatio) deadline ticks

theorem pollLoop_length_le_one (d u dl : ℚ) (ticks : List Tick) :
    (pollLoop d u dl ticks).length ≤ 1 := by
  induction ticks with
  | nil => simp [pollLoop]
  | cons a rest ih =>
      cases hc : sellCond d u dl a with
      | true => simp [pollLoop, hc]
      | false => simpa [pollLoop, hc] using ih

theorem pollLoop_mem (d u dl : ℚ) (ticks : List Tick) (t : Tick)
    (ht : t ∈ pollLoop d u dl ticks) :
    sellCond d u dl t = true ∧
      ∃ j, ∃ h : j < ticks.length, ticks.get ⟨j, h⟩ = t ∧
        ∀ s ∈ ticks.take j, sellCond d u dl s = false := by
  induction ticks with
  | nil => simp [pollLoop] at ht
  | cons a rest ih =>
      cases hc : sellCond d u dl a with
      | true =>
          rw [pollLoop, if_pos hc] at ht
          rcases List.mem_singleton.mp ht with rfl
          exact ⟨hc, 0, by simp, rfl, by simp⟩
      | false =>
          rw [pollLoop, if_neg (by simp [hc])] at ht
          obtain ⟨hcond, j, hj, hget, hprev⟩ := ih ht
          refine ⟨hcond, j + 1, by simpa using Nat.succ_lt_succ hj, by simpa using hget, ?_⟩
          intro s hs
          rw [List.take_succ_cons] at hs
          rcases List.mem_cons.mp hs with rfl | hs'
          · exact hc
          · exact hprev s hs'

theorem pollLoop_length_of_exists (d u dl : ℚ) (ticks : List Tick)
    (h : ∃ t ∈ ticks, sellCond d u dl t = true) :
    (pollLoop d u dl ticks).length = 1 := by
  induction ticks with
  | nil => simp at h
  | cons a rest ih =>
      cases hc : sellCond d u dl a with
      | true => simp [pollLoop, hc]
      | false =>
          obtain ⟨t, htm, htc⟩ := h
          rcases List.mem_cons.mp htm with rfl | hmem
          · rw [hc] at htc; cases htc
          · rw [pollLoop, if_neg (by simp [hc])]
            exact ih ⟨t, hmem, htc⟩

/-- Claim C1: a cycle whose buy executed at a non-zero price issues at most
one SELL; any SELL happens at a tick satisfying the trigger whose earlier
ticks all fail it (the first triggering tick); if some observed tick
satisfies the trigger, exactly one SELL is issued; and if every observed
price stays strictly inside the band, any SELL happens at a tick whose time
has reached the deadline. -/
theorem claim_C1 (purchase saleRatio deadline : ℚ) (ticks : List Tick)
    (hp : purchase ≠ 0) :
    (task_checking_prices purchase saleRatio deadline ticks).length ≤ 1 ∧
    (∀ t ∈ task_checking_prices purchase saleRatio deadline ticks,
       sellCond (down_price purchase saleRatio) (up_price purchase saleRatio) deadline t = true ∧
       ∃ j, ∃ h : j < ticks.length, ticks.get ⟨j, h⟩ = t ∧
         ∀ s ∈ ticks.take j,
           sellCond (down_price purchase saleRatio) (up_price purchase saleRatio) deadline s
             = false) ∧
    ((∃ t ∈ ticks,
        sellCond (down_price purchase saleRatio) (up_price purchase saleRatio) deadline t
          = true) →
       (task_checking_prices purchase saleRatio deadline ticks).length = 1) ∧
    ((∀ t ∈ ticks,
        down_price purchase saleRatio < t.price ∧ t.price < up_price purchase saleRatio) →
       ∀ t ∈ task_checking_prices purchase saleRatio deadline ticks, deadline ≤ t.now) := by
  have hrun : task_checking_prices purchase saleRatio deadline ticks =
      pollLoop (down_price purchase saleRatio) (up_price purchase saleRatio) deadline ticks := by
    rw [task_checking_prices, if_neg hp]
  refine ⟨hrun ▸ pollLoop_length_le_one _ _ _ _,
    fun t ht => pollLoop_mem _ _ _ _ _ (hrun ▸ ht),
    fun hex => hrun ▸ pollLoop_length_of_exists _ _ _ _ hex, ?_⟩
  intro hband t ht
  obtain ⟨hcond, j, hj, hget, -⟩ := pollLoop_mem _ _ _ _ _ (hrun ▸ ht)
  have htm : t ∈ ticks := hget ▸ List.get_mem ticks j hj
  obtain ⟨hlo, hhi⟩ := hband t htm
  simp only [sellCond, Bool.or_eq_true, decide_eq_true_eq] at hcond
  rcases hcond with (h1 | h2) | h3
  · exact absurd h1 (not_le.mpr hlo)
  · exact absurd h2 (not_le.mpr hhi)
  · exact h3

/-- Witness for C1: buy at 100, sell ratio 1/100 (band (99, 101)), deadline
10; the first tick (price 100.5, time 1) does not trigger, the second
(price 101, time 2) does. -/
theorem claim_C1_witness :
    ((100 : ℚ) ≠ 0) ∧
    ((task_checking_prices 100 (1/100) 10 [⟨201/2, 1⟩, ⟨101, 2⟩]).length ≤ 1 ∧
    (∀ t ∈ task_checking_prices 100 (1/100) 10 [⟨201/2, 1⟩, ⟨101, 2⟩],
       sellCond (down_price 100 (1/100)) (up_price 100 (1/100)) 10 t = true ∧
       ∃ j, ∃ h : j < ([⟨201/2, 1⟩, ⟨101, 2⟩] : List Tick).length,
         ([⟨201/2, 1⟩, ⟨101, 2⟩] : List Tick).get ⟨j, h⟩ = t ∧
         ∀ s ∈ ([⟨201/2, 1⟩, ⟨101, 2⟩] : List Tick).take j,
           sellCond (down_price 100 (1/100)) (up_price 100 (1/100)) 10 s = false) ∧
    ((∃ t ∈ ([⟨201/2, 1⟩, ⟨101, 2⟩] : List Tick),
        sellCond (down_price 100 (1/100)) (up_price 100 (1/100)) 10 t = true) →
       (task_checking_prices 100 (1/100) 10 [⟨201/2, 1⟩, ⟨101, 2⟩]).length = 1) ∧
    ((∀ t ∈ ([⟨201/2, 1⟩, ⟨101, 2⟩] : List Tick),
        down_price 100 (1/100) < t.price ∧ t.price < up_price 100 (1/100)) →
       ∀ t ∈ task_checking_prices 100 (1/100) 10 [⟨201/2, 1⟩, ⟨101, 2⟩], 10 ≤ t.now)) :=
  ⟨by norm_num, claim_C1 100 (1/100) 10 [⟨201/2, 1⟩, ⟨101, 2⟩] (by norm_num)⟩

/-- Claim C2: a cycle whose buy returned the zero sentinel issues no SELL at
all — the body guarded by line 53's truthiness test never runs, so the
polling loop is never entered. -/
theorem claim_C2 (saleRatio deadline : ℚ) (ticks : List Tick) :
    task_checking_prices 0 saleRatio deadline ticks = [] := by
  simp [task_checking_prices]

/-- Claim C3: for a purchase price P > 0 and a sell ratio 0 < r < 1, the
bounds computed at main.py lines 54–55 satisfy
`down_price = P * (1 - r)`, `up_price = P * (1 + r)`, and
`down_price < P < up_price`. -/
theorem claim_C3 (P r : ℚ) (hP : 0 < P) (hr0 : 0 < r) (hr1 : r < 1) :
    down_price P r = P * (1 - r) ∧ up_price P r = P * (1 + r) ∧
      down_price P r < P ∧ P < up_price P r := by
  have hPr : 0 < P * r := mul_pos hP hr0
  refine ⟨by rw [down_price]; ring, by rw [up_price]; ring, ?_, ?_⟩
  · rw [down_price]; linarith
  · rw [up_price]; linarith

/-- Witness for C3 at P = 100, r = 1/100. -/
theorem claim_C3_witness :
    ((0 : ℚ) < 100) ∧ ((0 : ℚ) < 1/100) ∧ ((1 : ℚ)/100 < 1) ∧
    (down_price 100 (1/100) = 100 * (1 - 1/100) ∧
      up_price 100 (1/100) = 100 * (1 + 1/100) ∧
      down_price 100 (1/100) < 100 ∧ (100 : ℚ) < up_price 100 (1/100)) :=
  ⟨by norm_num, by norm_num, by norm_num,
    claim_C3 100 (1/100) (by norm_num) (by norm_num) (by norm_num)⟩

/-- Rounding to the nearest multiple of `2^(-e)`: the IEEE-754 binary64
rounding of a real value lying in a binade whose unit in the last place is
`2^(-e)` (ties, which round to even, do not arise for the value considered
here). -/
def roundBinary (e : ℕ) (q : ℚ) : ℚ := ((round (q * 2 ^ e) : ℤ) : ℚ) / 2 ^ e

/-- app_config.py line 32: `self.sales_ratio = float(os.getenv("sales_ratio"))`
for the configured value `"0.01"`.  1/100 lies in the binade [2^(-7), 2^(-6)),
where a binary64 ulp is `2^(-59)`, so the stored value is the nearest multiple
of `2^(-59)`.  main.py lines 54–55 then apply `Decimal(self.config.sales_ratio)`,
and Python's `Decimal(float)` conversion is exact, so this rational is the
exact ratio used in the bound computation. -/
def sales_ratio_float : ℚ := roundBinary 59 (1 / 100)

theorem sales_ratio_float_eq :
    sales_ratio_float = 5764607523034235 / 576460752303423488 := by
  have h : round ((1 / 100 : ℚ) * 2 ^ 59) = 5764607523034235 := by
    rw [round_eq]
    norm_num [Int.floor_eq_iff]
  rw [sales_ratio_float, roundBinary, h]
  norm_num

/-- Claim C4 fails on the code: with the environment value `"0.01"` and a buy
executed at exactly 100.00, the bounds computed at main.py lines 54–55 are
not the exact decimals 99.00 and 101.00, because app_config.py line 32 passes
the ratio through a binary64 `float`.  The lower bound falls strictly below
99, the upper bound strictly above 101, and the ratio used differs from
1/100. -/
theorem claim_C4 :
    down_price 100 sales_ratio_float < 99 ∧ down_price 100 sales_ratio_float ≠ 99 ∧
      101 < up_price 100 sales_ratio_float ∧ up_price 100 sales_ratio_float ≠ 101 ∧
      sales_ratio_float ≠ 1 / 100 := by
  rw [down_price, up_price, sales_ratio_float_eq]
  norm_num

/-- An event delivered to the feed's receive call (main.py line 126): either
a message arrives, or the library raises `websockets.ConnectionClosed`. -/
inductive FeedEvent where
  | message (m : Message)
  | connectionClosed
  deriving DecidableEq, Repr

/-- The observable state of `DataLoader.load_data`: how many times the
`websockets.connect` + subscribe-send of main.py lines 121–122 have executed,
and the shared price cell. -/
structure FeedState where
  connects : ℕ
  cell : PriceCell
  deriving DecidableEq, Repr

/-- One iteration of the inner `while True` of `DataLoader.load_data`
(main.py lines 124–135).  A received message is handled by lines 127–132; a
`websockets.ConnectionClosed` raised by `recv` is caught by the `except`
clause, which logs and sleeps 2 seconds.  The handler does not `break`, so
in both cases control returns to the top of the *inner* loop: the connection
count cannot change here. -/
def feedStep (s : FeedState) (e : FeedEvent) : Except String FeedState :=
  match e with
  | FeedEvent.message m =>
      (processMessage s.cell m).map (fun c => { s with cell := c })
  | FeedEvent.connectionClosed => Except.ok s

/-- `DataLoader.load_data` (main.py lines 108–135) run against a trace of
receive events, starting from the initial shared cell.  The body of the outer
`while True` executes `websockets.connect` and sends the subscribe message
once (connects = 1), then enters the inner receive loop; the outer loop would
re-run (reconnect and resubscribe) only if the inner loop ended, and no event
makes it end — an uncaught exception would propagate out of both loops
instead. -/
def load_data (events : List FeedEvent) : Except String FeedState :=
  events.foldlM feedStep { connects := 1, cell := price_currency_init }

theorem feedStep_connects (s s' : FeedState) (e : FeedEvent)
    (h : feedStep s e = Except.ok s') : s'.connects = s.connects := by
  cases e with
  | connectionClosed =>
      rw [feedStep] at h
      cases h
      rfl
  | message m =>
      rw [feedStep] at h
      cases hpm : processMessage s.cell m with
      | error msg => rw [hpm] at h; cases h
      | ok c => rw [hpm] at h; cases h; rfl

theorem foldlM_feedStep_connects (events : List FeedEvent) (s0 s1 : FeedState)
    (h : events.foldlM feedStep s0 = Except.ok s1) :
    s1.connects = s0.connects := by
  induction events generalizing s0 with
  | nil =>
      rw [List.foldlM] at h
      cases h
      rfl
  | cons e rest ih =>
      rw [List.foldlM_cons] at h
      cases hfs : feedStep s0 e with
      | error msg => rw [hfs] at h; cases h
      | ok s' =>
          rw [hfs] at h
          have hrest : rest.foldlM feedStep s' = Except.ok s1 := h
          rw [ih s' hrest]
          exact feedStep_connects s0 s' e hfs

theorem load_data_replicate_closed (n : ℕ) :
    load_data (List.replicate n FeedEvent.connectionClosed) =
      Except.ok { connects := 1, cell := price_currency_init } := by
  have key : ∀ m : ℕ, ∀ s : FeedState,
      (List.replicate m FeedEvent.connectionClosed).foldlM feedStep s = Except.ok s := by
    intro m
    induction m with
    | zero => intro s; rfl
    | succ k ih =>
        intro s
        rw [List.replicate_succ, List.foldlM_cons]
        exact ih s
  exact key n _

/-- Claim C5 fails on the code: the `except websockets.ConnectionClosed`
handler at main.py lines 133–135 sleeps but never leaves the inner receive
loop, so the outer loop's reconnect never runs.  Whatever trace of events the
socket delivers, the number of connect-and-subscribe executions stays at 1
(the initial connection; zero reconnects); in particular N consecutive
closures are absorbed without a reconnect and without an exception escaping. -/
theorem claim_C5 (events : List FeedEvent) (s : FeedState)
    (h : load_data events = Except.ok s) :
    s.connects = 1 ∧
      ∀ n : ℕ, load_data (List.replicate n FeedEvent.connectionClosed) =
        Except.ok { connects := 1, cell := price_currency_init } :=
  ⟨foldlM_feedStep_connects events _ s h, load_data_replicate_closed⟩

/-- Witness for C5: one simulated disconnect ends with 1 total connect
(zero reconnects) and no escaped exception. -/
theorem claim_C5_witness :
    load_data [FeedEvent.connectionClosed] =
      Except.ok { connects := 1, cell := price_currency_init } ∧
    ((1 : ℕ) = 1 ∧
      ∀ n : ℕ, load_data (List.replicate n FeedEvent.connectionClosed) =
        Except.ok { connects := 1, cell := price_currency_init }) :=
  ⟨rfl, claim_C5 [FeedEvent.connectionClosed]
    { connects := 1, cell := price_currency_init } rfl⟩

/-- One entry of the `fills` array of the exchange's order-confirmation JSON;
the price arrives as a string. -/
structure Fill where
  price : String
  deriving DecidableEq, Repr

/-- The part of the exchange response that `ApiBinance.create_order` reads on
its return path: HTTP status code and the `fills` array. -/
structure OrderResponse where
  status : ℕ
  fills : List Fill
  deriving DecidableEq, Repr

/-- The return value of `ApiBinance.create_order` (main.py lines 231–244) as
a function of the exchange response: on HTTP 200 it returns
`Decimal(order_data['fills'][0]['price'])`; on any other status it logs and
returns `Decimal(0)` without touching the fill data.  Indexing an empty
`fills` array (`IndexError`) and an unparsable price string
(`InvalidOperation`) are modelled as errors on the 200 path. -/
def create_order_result (resp : OrderResponse) : Except String ℚ :=
  if resp.status = 200 then
    match resp.fills with
    | [] => Except.error "IndexError"
    | f :: _ =>
        match decimalOfString f.price with
        | none => Except.error "InvalidOperation"
        | some q => Except.ok q
  else Except.ok 0

/-- Claim C6: on HTTP 200 `create_order` returns the first fill's price
parsed as an exact decimal; on any non-200 status it returns the zero
sentinel, independently of whatever the fill data holds. -/
theorem claim_C6 (s1 s2 : ℕ) (f : Fill) (rest fills : List Fill) (q : ℚ)
    (h1 : s1 = 200) (hq : decimalOfString f.price = some q) (h2 : s2 ≠ 200) :
    create_order_result ⟨s1, f :: rest⟩ = Except.ok q ∧
      create_order_result ⟨s2, fills⟩ = Except.ok 0 := by
  subst h1
  constructor
  · simp [create_order_result, hq]
  · simp [create_order_result, h2]

/-- Witness for C6: a 200 response whose first fill price is "101" yields
101; a 404 response yields the zero sentinel though its fill data is
nonsense. -/
theorem claim_C6_witness :
    ((200 : ℕ) = 200) ∧ decimalOfString "101" = some (101 : ℚ) ∧ ((404 : ℕ) ≠ 200) ∧
      (create_order_result ⟨200, [⟨"101"⟩]⟩ = Except.ok 101 ∧
        create_order_result ⟨404, [⟨"bogus"⟩]⟩ = Except.ok 0) :=
  ⟨rfl, by simp [decimalOfString, splitOnDot, digitsValAux], by decide,
    claim_C6 200 404 ⟨"101"⟩ [] [⟨"bogus"⟩] 101 rfl
      (by simp [decimalOfString, splitOnDot, digitsValAux]) (by decide)⟩

/-- Serialisation of an ordered parameter list as `k1=v1&k2=v2&...`, the
layout of the f-string at main.py lines 210–213. -/
def joinParams : List (String × String) → String
  | [] => ""
  | [p] => p.1 ++ "=" ++ p.2
  | p :: rest => p.1 ++ "=" ++ p.2 ++ "&" ++ joinParams rest

/-- The six parameters shared by the signed string and the request body of
`ApiBinance.create_order` (main.py lines 210–213 and lines 222–227), in
source order.  Timestamp and recvWindow are taken already rendered to their
interpolated strings. -/
def order_base_params (symbol side orderType quantity tsS rwS : String) :
    List (String × String) :=
  [("symbol", symbol), ("side", side), ("type", orderType), ("quantity", quantity),
   ("timestamp", tsS), ("recvWindow", rwS)]

/-- The string handed to `get_signature` (main.py lines 210–216): the base
parameter string, with `&price=<price>` appended iff a truthy `price`
argument was supplied — line 214's `if price:` treats both `None` and
`Decimal(0)` as falsy. -/
def order_params_string (symbol side orderType quantity tsS rwS : String)
    (price : Option ℚ) : String :=
  let base := joinParams (order_base_params symbol side orderType quantity tsS rwS)
  match price with
  | none => base
  | some p => if p = 0 then base else base ++ "&price=" ++ toString p

/-- The POST body dict of `create_order` (main.py lines 221–229): the base
parameters followed by the signature; no `price` entry exists on any path. -/
def order_body (symbol side orderType quantity tsS rwS signedSig : String) :
    List (String × String) :=
  order_base_params symbol side orderType quantity tsS rwS ++ [("signature", signedSig)]

/-- Claim C10: when a non-falsy price is supplied, the signed string is the
body's parameter string with `&price=...` appended — so it differs from the
string the submitted parameters form, while the body itself carries no
`price` key; when no price is supplied (the market orders this system
issues), the signed string equals the serialisation of the submitted body
parameters (the signature entry itself excluded). -/
theorem claim_C10 (symbol side orderType quantity tsS rwS signedSig : String)
    (p : ℚ) (hp : p ≠ 0) :
    (order_params_string symbol side orderType quantity tsS rwS (some p) =
       order_params_string symbol side orderType quantity tsS rwS none
         ++ "&price=" ++ toString p) ∧
    (order_params_string symbol side orderType quantity tsS rwS (some p) ≠
       order_params_string symbol side orderType quantity tsS rwS none) ∧
    ((order_body symbol side orderType quantity tsS rwS signedSig).map Prod.fst =
       ["symbol", "side", "type", "quantity", "timestamp", "recvWindow", "signature"]) ∧
    ("price" ∉ (order_body symbol side orderType quantity tsS rwS signedSig).map Prod.fst) ∧
    (order_params_string symbol side orderType quantity tsS rwS none =
       joinParams ((order_body symbol side orderType quantity tsS rwS signedSig).dropLast)) := by
  refine ⟨?_, ?_, ?_, ?_, ?_⟩
  · rw [order_params_string, order_params_string]
    simp [hp]
  · rw [order_params_string, order_params_string]
    simp only [hp, if_false, if_neg]
    intro hcontra
    have hlen := congrArg String.length hcontra
    rw [String.length_append, String.length_append] at hlen
    have h7 : ("&price=" : String).length = 7 := rfl
    omega
  · rfl
  · rw [show (order_body symbol side orderType quantity tsS rwS signedSig).map Prod.fst =
        ["symbol", "side", "type", "quantity", "timestamp", "recvWindow", "signature"] from rfl]
    decide
  · rfl

/-- Witness for C10 at concrete market-order arguments and price 100. -/
theorem claim_C10_witness :
    ((100 : ℚ) ≠ 0) ∧
    ((order_params_string "BTCUSDT" "BUY" "MARKET" "0.001" "1700000000000" "5000" (some 100) =
       order_params_string "BTCUSDT" "BUY" "MARKET" "0.001" "1700000000000" "5000" none
         ++ "&price=" ++ toString (100 : ℚ)) ∧
    (order_params_string "BTCUSDT" "BUY" "MARKET" "0.001" "1700000000000" "5000" (some 100) ≠
       order_params_string "BTCUSDT" "BUY" "MARKET" "0.001" "1700000000000" "5000" none) ∧
    ((order_body "BTCUSDT" "BUY" "MARKET" "0.001" "1700000000000" "5000" "sig").map Prod.fst =
       ["symbol", "side", "type", "quantity", "timestamp", "recvWindow", "signature"]) ∧
    ("price" ∉
       (order_body "BTCUSDT" "BUY" "MARKET" "0.001" "1700000000000" "5000" "sig").map Prod.fst) ∧
    (order_params_string "BTCUSDT" "BUY" "MARKET" "0.001" "1700000000000" "5000" none =
       joinParams
         ((order_body "BTCUSDT" "BUY" "MARKET" "0.001" "1700000000000" "5000" "sig").dropLast))) :=
  ⟨by norm_num,
    claim_C10 "BTCUSDT" "BUY" "MARKET" "0.001" "1700000000000" "5000" "sig" 100 (by norm_num)⟩
